import Mathlib

/-!
# Verification of the ddwrap Device Write Orchestrator (src/ddwrap.py)

Shallow embedding of the dd-wrapper GUI program.  Pure helper functions are
translated directly; the stateful GUI methods (`start_dd`,
`update_dev_capacity`, `update_progress`, the `DDWorker` thread) are embedded
as functions from an explicit environment/state to an event trace or updated
state, following the Python control flow line by line.
-/

namespace DDWrap

/-- Boolean substring test, the embedding of Python `pat in s`. -/
def strContains (s pat : String) : Bool := decide (pat.data <:+: s.data)

/-- Python `str.strip()`: remove leading and trailing whitespace. -/
def pyStrip (s : String) : String :=
  ⟨((s.data.dropWhile Char.isWhitespace).reverse.dropWhile
      Char.isWhitespace).reverse⟩

/- ----------------- Privilege helpers (ddwrap.py lines 25-35) -----------------
The four probes read the execution environment only; we record their results
in an `Env` so the embedding stays pure. -/

/-- Result of the `os.open(ofile, os.O_WRONLY | os.O_EXCL)` probe in
`start_dd`: success, `PermissionError`, or any other `OSError`
(Python dispatches to the *first* matching `except` clause, and
`except PermissionError` precedes `except OSError`). -/
inductive OpenResult
  | ok
  | permErr
  | otherOsErr
deriving DecidableEq, Repr

/-- How the operator resolves the confirmation dialog: an explicit click on
OK or Cancel, accepting the dialog default button, or aborting/closing the
dialog (Qt routes Escape/close to the Cancel button when one is present). -/
inductive Interaction
  | clickOk
  | clickCancel
  | pressEnterDefault
  | abort
deriving DecidableEq, Repr

/-- Qt standard buttons used by `confirm_destructive_write`. -/
inductive Btn
  | ok
  | cancel
deriving DecidableEq, Repr

/-- External-world snapshot consumed by one `start_dd` call. -/
structure Env where
  /-- `os.path.exists(infile)` -/
  inputExists : Bool
  /-- result of the exclusive-open probe on the target device -/
  openResult : OpenResult
  /-- stripped stdout of `lsblk <device>` (partition layout) -/
  lsblkInfo : String
  /-- `get_smart_info`: `none` when `smartctl` is not installed, otherwise
  the stripped stdout of `smartctl -i <device>` -/
  smartInfo : Option String
  /-- how the operator resolves the confirmation dialog -/
  interaction : Interaction
  /-- `os.geteuid() == 0` -/
  isRoot : Bool
  /-- `shutil.which("sudo") is not None` -/
  hasSudo : Bool
  /-- `shutil.which("doas") is not None` -/
  hasDoas : Bool
  /-- `shutil.which("pkexec") is not None` -/
  hasPkexec : Bool
  /-- whether a previously started `DDWorker` is still running when
  `start_dd` is entered again (the method never consults this) -/
  workerRunning : Bool
deriving DecidableEq, Repr

/-- The subprocess spawn performed by `DDWorker.run` via `subprocess.Popen`:
an argv token list; `shell` records whether a shell-interpreted string is
used (`subprocess.Popen` is called with the list and without `shell=True`). -/
structure SpawnCall where
  args : List String
  shell : Bool
deriving DecidableEq, Repr

/-- Observable actions of one `start_dd` call, in program order. -/
inductive Event
  | errorDialog (title msg : String)
  | checkExclusive (device : String)
  | confirmDialog (message : String)
  | appendDisplay (text : String)
  | spawnWorker (call : SpawnCall)
deriving DecidableEq, Repr

/-- `True` exactly on `spawnWorker` events. -/
def Event.isSpawn : Event → Bool
  | .spawnWorker _ => true
  | _ => false

/- ----------------- confirm_destructive_write (lines 201-222) ------------- -/

/-- `smart_text = f"\nSMART Info:\n{smart_info}" if smart_info else ""`
(Python truthiness: `None` and the empty string both give `""`). -/
def smartText : Option String → String
  | none => ""
  | some s => if s = "" then "" else "\nSMART Info:\n" ++ s

/-- The message string assembled by `confirm_destructive_write`. -/
def confirmMessage (device lsblkInfo : String) (smartInfo : Option String)
    (image : String) : String :=
  "WARNING: DESTRUCTIVE OPERATION\n\n" ++
  "Target device: " ++ device ++ "\n\n" ++
  "Partition layout:\n" ++ lsblkInfo ++
  smartText smartInfo ++ "\n\n" ++
  "Image: " ++ image ++ "\n\n" ++
  "Click OK to continue."

/-- Which button the `QMessageBox.warning` call returns: the dialog is shown
with buttons Ok|Cancel and `defaultButton = Cancel`; Escape/close activates
Cancel. -/
def dialogReply (defaultBtn : Btn) : Interaction → Btn
  | .clickOk => .ok
  | .clickCancel => .cancel
  | .pressEnterDefault => defaultBtn
  | .abort => .cancel

/-- `confirm_destructive_write` returns `reply == QMessageBox.StandardButton.Ok`;
the default button passed to the dialog is Cancel (line 220). -/
def confirmDestructiveWrite (i : Interaction) : Bool :=
  dialogReply Btn.cancel i == Btn.ok

/- ----------------- privilege resolution inside start_dd (257-266) -------- -/

/-- The privilege prefix `start_dd` inserts at position 0 of the command:
`some []` when already root, otherwise the first of sudo/doas/pkexec found;
`none` when no mechanism is available (the error path). -/
def resolvePrivilege (e : Env) : Option (List String) :=
  if e.isRoot then some []
  else if e.hasSudo then some ["sudo"]
  else if e.hasDoas then some ["doas"]
  else if e.hasPkexec then some ["pkexec"]
  else none

/- ----------------- command construction (lines 250-255) ------------------ -/

/-- `cmd = ["dd", f"if={infile}", f"of={ofile}", f"bs={bs}"]` plus the two
optional flags appended in order. -/
def buildCmd (infile ofile bs : String) (syncFlag progressFlag : Bool) :
    List String :=
  ["dd", "if=" ++ infile, "of=" ++ ofile, "bs=" ++ bs]
    ++ (if syncFlag then ["oflag=sync"] else [])
    ++ (if progressFlag then ["status=progress"] else [])

/- ----------------- start_dd (lines 225-273) ------------------------------ -/

/-- The `start_dd` method as a trace of observable events.  `infile` and
`ofile` are the already-stripped texts of the input edit and the device
combo box; `bs` is the block-size combo text; the two Booleans are the
checkbox states. -/
def start_dd (e : Env) (infile ofile bs : String)
    (syncFlag progressFlag : Bool) : List Event :=
  if ¬ e.inputExists then
    [Event.errorDialog "Error" "Invalid input file."]
  else
    match e.openResult with
    | .permErr =>
        [Event.checkExclusive ofile,
         Event.errorDialog "Permission Error" "Requires root privileges."]
    | .otherOsErr =>
        [Event.checkExclusive ofile,
         Event.errorDialog "Device Busy" "Target device is mounted or in use."]
    | .ok =>
        Event.checkExclusive ofile ::
        Event.confirmDialog (confirmMessage ofile e.lsblkInfo e.smartInfo infile) ::
        if ¬ confirmDestructiveWrite e.interaction then []
        else
          match resolvePrivilege e with
          | none =>
              [Event.errorDialog "Privileges" "Run as root or install sudo/doas."]
          | some pre =>
              let cmd := pre ++ buildCmd infile ofile bs syncFlag progressFlag
              [Event.appendDisplay ("Running: " ++ String.intercalate " " cmd ++ "\n"),
               Event.spawnWorker ⟨cmd, false⟩]

/- ----------------- DDWorker (lines 38-58) -------------------------------- -/

/-- Signals the worker thread emits, in order. -/
inductive WSig
  | progress (text : String)
  | finished
deriving DecidableEq, Repr

/-- `DDWorker.run`: every stderr line containing `"bytes"` is emitted
stripped as a `progress` signal; after `process.wait()` the `finished`
signal is emitted unconditionally — the exit status is never consulted. -/
def workerRun (stderrLines : List String) (exitCode : Int) : List WSig :=
  ((stderrLines.filter (fun l => strContains l "bytes")).map
      (fun l => WSig.progress (pyStrip l)))
    ++ [WSig.finished]

/-- Operations `DDWorker.run` performs on its subprocess. -/
inductive ProcOp
  | popen (call : SpawnCall)
  | readStderrLine (line : String)
  | wait
  | terminate
deriving DecidableEq, Repr

/-- The subprocess operations of one `DDWorker.run`: spawn (argv list, no
shell), read each stderr line, then `wait`.  The class exposes no
cancellation entry point and never calls `terminate`/`kill`. -/
def workerProcOps (cmd : List String) (stderrLines : List String) : List ProcOp :=
  ProcOp.popen ⟨cmd, false⟩ ::
    (stderrLines.map ProcOp.readStderrLine ++ [ProcOp.wait])

/- ----------------- GUI reactions to worker signals (271-280) ------------- -/

/-- Actions the GUI takes in response to worker signals.  `setCancelled` is
the vocabulary for a Cancelled outcome report; no handler produces it. -/
inductive GuiAction
  | appendLog (text : String)
  | showInfo (title msg : String)
  | setCancelled
deriving DecidableEq, Repr

/-- `update_progress` (lines 276-277): appends the raw text to the display. -/
def updateProgressAction (text : String) : GuiAction := .appendLog text

/-- `dd_finished` (lines 279-280): unconditionally reports success. -/
def ddFinished : GuiAction := .showInfo "Done" "DD completed successfully."

/-- The slot connections made in `start_dd` (lines 271-272). -/
def guiHandle : WSig → GuiAction
  | .progress t => updateProgressAction t
  | .finished => ddFinished

/-- Everything the GUI reports for one worker run over the given stderr
stream and exit code. -/
def runReport (stderrLines : List String) (exitCode : Int) : List GuiAction :=
  (workerRun stderrLines exitCode).map guiHandle

/- ----------------- progress-display state (67-69, 101-106, 276-277) ------ -/

/-- The GUI fields touched by image selection and progress reporting. -/
structure ProgressUiState where
  imageSizeBytes : Nat
  lastBytes : Nat
  lastUpdateTime : Nat
  progressBarValue : Nat
  etaLabel : String
  log : List String
deriving DecidableEq, Repr

/-- Field initialisation from `__init__` (lines 67-69, 101-105) after
`show_file_size` has recorded the chosen image size (line 149). -/
def initProgressUi (imageSize : Nat) : ProgressUiState :=
  { imageSizeBytes := imageSize
    lastBytes := 0
    lastUpdateTime := 0
    progressBarValue := 0
    etaLabel := "Progress: 0% - ETA: N/A"
    log := [] }

/-- `update_progress` as a state transformer: the only statement is
`self.progress_display.append(text)`. -/
def update_progress (st : ProgressUiState) (text : String) : ProgressUiState :=
  { st with log := st.log ++ [text] }

/- ----------------- device selection (113-114, 173-192, 283-290) ---------- -/

/-- `get_mounted_partitions` (lines 283-290): truthiness of
`result.stdout.strip()` for `lsblk -n -o MOUNTPOINT <device>`. -/
def get_mounted_partitions (stdoutText : String) : Bool :=
  pyStrip stdoutText ≠ ""

/-- External queries issued by `update_dev_capacity`. -/
inductive DevQuery
  | capacityQuery (args : List String)
  | mountQuery (args : List String)
deriving DecidableEq, Repr

/-- External-world snapshot for one `update_dev_capacity` call. -/
structure DevEnv where
  /-- `int(result.stdout.strip())` of `lsblk -b -dn -o SIZE`; `none` when
  the capacity query or the parse raises (the `except` path) -/
  capacityBytes : Option Nat
  /-- stdout of `lsblk -n -o MOUNTPOINT <device>` -/
  mountOut : String
deriving DecidableEq, Repr

/-- The widget state updated by `update_dev_capacity`. -/
structure DevUiState where
  /-- capacity shown in the label; `none` renders as "N/A" -/
  devCapacityBytes : Option Nat
  startEnabled : Bool
  unmountEnabled : Bool
deriving DecidableEq, Repr

/-- `update_dev_capacity` (lines 173-192): strips the combo text, returns
unchanged on empty text, otherwise runs the capacity query (failures only
affect the label) and the mount query, then enables Start iff no mountpoint
was reported and Unmount iff one was. -/
def update_dev_capacity (currentText : String) (env : DevEnv)
    (st : DevUiState) : DevUiState × List DevQuery :=
  let device := pyStrip currentText
  if device = "" then (st, [])
  else
    ({ st with
        devCapacityBytes := env.capacityBytes
        startEnabled := ! get_mounted_partitions env.mountOut
        unmountEnabled := get_mounted_partitions env.mountOut },
     [DevQuery.capacityQuery ["lsblk", "-b", "-dn", "-o", "SIZE", device],
      DevQuery.mountQuery ["lsblk", "-n", "-o", "MOUNTPOINT", device]])

/-- The slot connected to `currentTextChanged` (line 114): every
device-selection change invokes `update_dev_capacity`. -/
def onDeviceSelectionChanged : String → DevEnv → DevUiState →
    DevUiState × List DevQuery :=
  update_dev_capacity

/- ----------------- Concrete environments for instantiation --------------- -/

/-- A root session: existing image, exclusive open succeeds, operator
clicks OK. -/
def envAcceptedRoot : Env :=
  { inputExists := true
    openResult := .ok
    lsblkInfo := "sdb      8:16   1  14.9G  0 disk"
    smartInfo := none
    interaction := .clickOk
    isRoot := true
    hasSudo := false
    hasDoas := false
    hasPkexec := false
    workerRunning := false }

/-- `envAcceptedRoot` while a previously started worker is still running. -/
def envAcceptedRootRunning : Env := { envAcceptedRoot with workerRunning := true }

/-- Non-root session where only `pkexec` is installed. -/
def envPkexecOnly : Env := { envAcceptedRoot with isRoot := false, hasPkexec := true }

/-- Session where the exclusive-open probe raises `PermissionError`. -/
def envPermDenied : Env := { envAcceptedRoot with openResult := .permErr }

/-- The message string `msg` displays the part `part` verbatim. -/
def presents (msg part : String) : Prop :=
  ∃ pre post, msg = pre ++ (part ++ post)

/- ========================= Theorems ====================================== -/

/-- Claim C1. The reported terminal outcome does not depend on the subprocess
exit status at all: `runReport` is the same function of the stderr stream for
every exit code, and a run whose subprocess exits with status 1 is still
reported with the "DD completed successfully." dialog — the code never maps a
non-success exit to a failure outcome. -/
theorem nonzero_exit_reported_as_success :
    (∀ (stderrLines : List String) (exitCode : Int),
        runReport stderrLines exitCode = runReport stderrLines 0) ∧
    runReport ["4096 bytes (4.1 kB, 4.0 KiB) copied, 0.07 s, 51.9 kB/s"] 1 =
      [GuiAction.appendLog "4096 bytes (4.1 kB, 4.0 KiB) copied, 0.07 s, 51.9 kB/s",
       GuiAction.showInfo "Done" "DD completed successfully."] :=
  ⟨fun _ _ => rfl, by decide⟩

/-- Claim C2. With an existing input file, a `PermissionError` from the
exclusive-open probe stops the commit with the privilege-specific dialog, any
other `OSError` stops it with the distinct Device Busy dialog, and whenever
the probe fails the trace contains no worker spawn, so no copy command is
built and no subprocess is started. -/
theorem exclusive_open_failure_blocks_commit :
    ∀ (e : Env) (infile ofile bs : String) (syncFlag progressFlag : Bool),
      e.inputExists = true →
      (e.openResult = OpenResult.permErr →
        start_dd e infile ofile bs syncFlag progressFlag =
          [Event.checkExclusive ofile,
           Event.errorDialog "Permission Error" "Requires root privileges."]) ∧
      (e.openResult = OpenResult.otherOsErr →
        start_dd e infile ofile bs syncFlag progressFlag =
          [Event.checkExclusive ofile,
           Event.errorDialog "Device Busy" "Target device is mounted or in use."]) ∧
      (Event.errorDialog "Permission Error" "Requires root privileges." ≠
        Event.errorDialog "Device Busy" "Target device is mounted or in use.") ∧
      (e.openResult ≠ OpenResult.ok →
        (start_dd e infile ofile bs syncFlag progressFlag).countP Event.isSpawn = 0) := by
  intro e infile ofile bs s p hin
  refine ⟨fun hperm => by simp [start_dd, hin, hperm],
          fun hbusy => by simp [start_dd, hin, hbusy],
          by decide, ?_⟩
  intro hne
  cases hres : e.openResult with
  | ok => exact absurd hres hne
  | permErr => simp [start_dd, hin, hres, Event.isSpawn]
  | otherOsErr => simp [start_dd, hin, hres, Event.isSpawn]

/-- Concrete instantiation of `exclusive_open_failure_blocks_commit`. -/
theorem exclusive_open_failure_blocks_commit_witness :
    start_dd envPermDenied "disk.img" "/dev/sdb" "512k" true true =
      [Event.checkExclusive "/dev/sdb",
       Event.errorDialog "Permission Error" "Requires root privileges."] :=
  (exclusive_open_failure_blocks_commit envPermDenied "disk.img" "/dev/sdb" "512k"
      true true rfl).1 rfl

/-- Claim C3 (code-bug evidence). Every run of `start_dd` that spawns the
write subprocess has the exact trace: exclusivity check first, confirmation
dialog second, command echo and spawn last — so the only exclusive-open check
happens before the confirmation interaction, and no check occurs between
confirmation and spawn. -/
theorem spawn_trace_checks_before_confirmation :
    ∀ (e : Env) (infile ofile bs : String) (syncFlag progressFlag : Bool)
      (call : SpawnCall),
      Event.spawnWorker call ∈ start_dd e infile ofile bs syncFlag progressFlag →
      start_dd e infile ofile bs syncFlag progressFlag =
        [Event.checkExclusive ofile,
         Event.confirmDialog (confirmMessage ofile e.lsblkInfo e.smartInfo infile),
         Event.appendDisplay ("Running: " ++ String.intercalate " " call.args ++ "\n"),
         Event.spawnWorker call] := by
  intro e infile ofile bs s p call hmem
  cases hin : e.inputExists with
  | false => simp [start_dd, hin] at hmem
  | true =>
    cases hres : e.openResult with
    | permErr => simp [start_dd, hin, hres] at hmem
    | otherOsErr => simp [start_dd, hin, hres] at hmem
    | ok =>
      cases hconf : confirmDestructiveWrite e.interaction with
      | false => simp [start_dd, hin, hres, hconf] at hmem
      | true =>
        cases hpriv : resolvePrivilege e with
        | none => simp [start_dd, hin, hres, hconf, hpriv] at hmem
        | some pre =>
          simp [start_dd, hin, hres, hconf, hpriv] at hmem ⊢
          simp [hmem]

/-- Concrete instantiation of `spawn_trace_checks_before_confirmation`. -/
theorem spawn_trace_checks_before_confirmation_witness :
    start_dd envAcceptedRoot "disk.img" "/dev/sdb" "512k" true true =
      [Event.checkExclusive "/dev/sdb",
       Event.confirmDialog
         (confirmMessage "/dev/sdb" envAcceptedRoot.lsblkInfo
           envAcceptedRoot.smartInfo "disk.img"),
       Event.appendDisplay
         ("Running: " ++
           String.intercalate " "
             (SpawnCall.mk
               ["dd", "if=disk.img", "of=/dev/sdb", "bs=512k",
                "oflag=sync", "status=progress"] false).args ++ "\n"),
       Event.spawnWorker
         (SpawnCall.mk
           ["dd", "if=disk.img", "of=/dev/sdb", "bs=512k",
            "oflag=sync", "status=progress"] false)] :=
  spawn_trace_checks_before_confirmation envAcceptedRoot "disk.img" "/dev/sdb"
    "512k" true true
    (SpawnCall.mk
      ["dd", "if=disk.img", "of=/dev/sdb", "bs=512k",
       "oflag=sync", "status=progress"] false)
    (by decide)

/-- Claim C4 (code-bug evidence). `start_dd` never consults whether a worker
is already running — its trace is identical whether `workerRunning` is true
or false — and with a permissive environment it spawns a (second) subprocess
even while the flag records a running worker. -/
theorem second_commit_spawns_while_running :
    (∀ (e : Env) (infile ofile bs : String) (syncFlag progressFlag : Bool),
        start_dd { e with workerRunning := true } infile ofile bs syncFlag progressFlag =
          start_dd { e with workerRunning := false } infile ofile bs syncFlag progressFlag) ∧
    (start_dd envAcceptedRootRunning "disk.img" "/dev/sdb" "512k" true true).countP
        Event.isSpawn = 1 :=
  ⟨fun _ _ _ _ _ _ => rfl, by decide⟩

/-- Claim C5 (code-bug evidence). `update_progress` only appends the raw
subprocess line to the log: it leaves the ETA label, the progress-bar value
and the rate-sample fields untouched, and in particular the line reporting
536870912 of 1073741824 bytes produces no 50 percent value anywhere in the
GUI state. -/
theorem update_progress_computes_no_metrics :
    (∀ (st : ProgressUiState) (text : String),
        (update_progress st text).etaLabel = st.etaLabel ∧
        (update_progress st text).progressBarValue = st.progressBarValue ∧
        (update_progress st text).lastBytes = st.lastBytes ∧
        (update_progress st text).lastUpdateTime = st.lastUpdateTime ∧
        (update_progress st text).log = st.log ++ [text]) ∧
    update_progress (initProgressUi 1073741824)
        "536870912 bytes (537 MB, 512 MiB) copied, 5 s, 107 MB/s" =
      { imageSizeBytes := 1073741824
        lastBytes := 0
        lastUpdateTime := 0
        progressBarValue := 0
        etaLabel := "Progress: 0% - ETA: N/A"
        log := ["536870912 bytes (537 MB, 512 MiB) copied, 5 s, 107 MB/s"] } :=
  ⟨fun _ _ => ⟨rfl, rfl, rfl, rfl, rfl⟩, by decide⟩

/-- Claim C6. Privilege resolution: root means no prefix; otherwise sudo,
then doas, then pkexec, first available; with none of them the commit ends in
the user-facing Privileges dialog and never spawns a subprocess. -/
theorem privilege_resolution_fixed_order :
    (∀ e : Env, e.isRoot = true → resolvePrivilege e = some []) ∧
    (∀ e : Env, e.isRoot = false → e.hasSudo = true →
        resolvePrivilege e = some ["sudo"]) ∧
    (∀ e : Env, e.isRoot = false → e.hasSudo = false → e.hasDoas = true →
        resolvePrivilege e = some ["doas"]) ∧
    (∀ e : Env, e.isRoot = false → e.hasSudo = false → e.hasDoas = false →
        e.hasPkexec = true → resolvePrivilege e = some ["pkexec"]) ∧
    (∀ e : Env, e.isRoot = false → e.hasSudo = false → e.hasDoas = false →
        e.hasPkexec = false → resolvePrivilege e = none) ∧
    (∀ (e : Env) (infile ofile bs : String) (syncFlag progressFlag : Bool),
        resolvePrivilege e = none → e.inputExists = true →
        e.openResult = OpenResult.ok → e.interaction = Interaction.clickOk →
        start_dd e infile ofile bs syncFlag progressFlag =
          [Event.checkExclusive ofile,
           Event.confirmDialog (confirmMessage ofile e.lsblkInfo e.smartInfo infile),
           Event.errorDialog "Privileges" "Run as root or install sudo/doas."]) ∧
    (∀ (e : Env) (infile ofile bs : String) (syncFlag progressFlag : Bool),
        resolvePrivilege e = none →
        (start_dd e infile ofile bs syncFlag progressFlag).countP Event.isSpawn = 0) := by
  refine ⟨fun e h => by simp [resolvePrivilege, h],
          fun e h1 h2 => by simp [resolvePrivilege, h1, h2],
          fun e h1 h2 h3 => by simp [resolvePrivilege, h1, h2, h3],
          fun e h1 h2 h3 h4 => by simp [resolvePrivilege, h1, h2, h3, h4],
          fun e h1 h2 h3 h4 => by simp [resolvePrivilege, h1, h2, h3, h4],
          ?_, ?_⟩
  · intro e infile ofile bs s p hpriv hin hres hint
    simp [start_dd, hin, hres, hint, hpriv, confirmDestructiveWrite, dialogReply]
  · intro e infile ofile bs s p hpriv
    cases hin : e.inputExists with
    | false => simp [start_dd, hin, Event.isSpawn]
    | true =>
      cases hres : e.openResult with
      | permErr => simp [start_dd, hin, hres, Event.isSpawn]
      | otherOsErr => simp [start_dd, hin, hres, Event.isSpawn]
      | ok =>
        cases hconf : confirmDestructiveWrite e.interaction with
        | false => simp [start_dd, hin, hres, hconf, Event.isSpawn]
        | true => simp [start_dd, hin, hres, hconf, hpriv, Event.isSpawn]

/-- Concrete instantiation of `privilege_resolution_fixed_order`: no root, no
sudo, no doas, but pkexec present resolves to the pkexec prefix. -/
theorem privilege_resolution_fixed_order_witness :
    resolvePrivilege envPkexecOnly = some ["pkexec"] :=
  privilege_resolution_fixed_order.2.2.2.1 envPkexecOnly rfl rfl rfl rfl

/-- Claim C7. Every spawned copy command is an argv list of discrete tokens —
the privilege prefix, then `dd`, `if=`, `of=`, `bs=`, then the two optional
flags — and both the GUI spawn and the worker `Popen` use the token list with
no shell interpretation, for every source path, target path and block size. -/
theorem command_built_as_discrete_tokens :
    (∀ (e : Env) (infile ofile bs : String) (syncFlag progressFlag : Bool)
        (call : SpawnCall),
        Event.spawnWorker call ∈ start_dd e infile ofile bs syncFlag progressFlag →
        call.shell = false ∧
        ∃ pre, resolvePrivilege e = some pre ∧
          call.args = pre ++
            (["dd", "if=" ++ infile, "of=" ++ ofile, "bs=" ++ bs]
              ++ (if syncFlag then ["oflag=sync"] else [])
              ++ (if progressFlag then ["status=progress"] else []))) ∧
    (∀ (cmd : List String) (stderrLines : List String) (call : SpawnCall),
        ProcOp.popen call ∈ workerProcOps cmd stderrLines →
        call.shell = false ∧ call.args = cmd) := by
  constructor
  · intro e infile ofile bs s p call hmem
    cases hin : e.inputExists with
    | false => simp [start_dd, hin] at hmem
    | true =>
      cases hres : e.openResult with
      | permErr => simp [start_dd, hin, hres] at hmem
      | otherOsErr => simp [start_dd, hin, hres] at hmem
      | ok =>
        cases hconf : confirmDestructiveWrite e.interaction with
        | false => simp [start_dd, hin, hres, hconf] at hmem
        | true =>
          cases hpriv : resolvePrivilege e with
          | none => simp [start_dd, hin, hres, hconf, hpriv] at hmem
          | some pre =>
            simp [start_dd, hin, hres, hconf, hpriv, buildCmd] at hmem
            exact ⟨by simp [hmem], pre, rfl, by simp [hmem, buildCmd]⟩
  · intro cmd lines call hmem
    simp [workerProcOps] at hmem
    exact ⟨by simp [hmem], by simp [hmem]⟩

/-- Concrete instantiation of `command_built_as_discrete_tokens`. -/
theorem command_built_as_discrete_tokens_witness :
    (SpawnCall.mk
        ["dd", "if=disk.img", "of=/dev/sdb", "bs=512k",
         "oflag=sync", "status=progress"] false).shell = false ∧
    ∃ pre, resolvePrivilege envAcceptedRoot = some pre ∧
      (SpawnCall.mk
          ["dd", "if=disk.img", "of=/dev/sdb", "bs=512k",
           "oflag=sync", "status=progress"] false).args = pre ++
        (["dd", "if=" ++ "disk.img", "of=" ++ "/dev/sdb", "bs=" ++ "512k"]
          ++ (if true then ["oflag=sync"] else [])
          ++ (if true then ["status=progress"] else [])) :=
  command_built_as_discrete_tokens.1 envAcceptedRoot "disk.img" "/dev/sdb" "512k"
    true true
    (SpawnCall.mk
      ["dd", "if=disk.img", "of=/dev/sdb", "bs=512k",
       "oflag=sync", "status=progress"] false)
    (by decide)

/-- Claim C8. The confirmation message presents the target device, the full
partition-layout text, the non-empty health summary when present, and the
source image; the dialog result is Accepted exactly on an explicit OK click,
its default button is Cancel, and both accepting the default and aborting the
interaction yield Rejected. -/
theorem confirmation_gate_contents_and_default :
    (∀ (device lsblkInfo : String) (smartInfo : Option String) (image : String),
        presents (confirmMessage device lsblkInfo smartInfo image) device ∧
        presents (confirmMessage device lsblkInfo smartInfo image) lsblkInfo ∧
        presents (confirmMessage device lsblkInfo smartInfo image) image) ∧
    (∀ (device lsblkInfo s image : String), s ≠ "" →
        presents (confirmMessage device lsblkInfo (some s) image) s) ∧
    (∀ i : Interaction, confirmDestructiveWrite i = true ↔ i = Interaction.clickOk) ∧
    dialogReply Btn.cancel Interaction.pressEnterDefault = Btn.cancel ∧
    confirmDestructiveWrite Interaction.pressEnterDefault = false ∧
    confirmDestructiveWrite Interaction.abort = false := by
  refine ⟨?_, ?_, ?_, rfl, rfl, rfl⟩
  · intro d l sm i
    refine ⟨⟨"WARNING: DESTRUCTIVE OPERATION\n\nTarget device: ",
             "\n\nPartition layout:\n" ++ (l ++ (smartText sm ++
               ("\n\nImage: " ++ (i ++ "\n\nClick OK to continue.")))),
             ?_⟩,
            ⟨"WARNING: DESTRUCTIVE OPERATION\n\nTarget device: " ++
               (d ++ "\n\nPartition layout:\n"),
             smartText sm ++ ("\n\nImage: " ++ (i ++ "\n\nClick OK to continue.")),
             ?_⟩,
            ⟨"WARNING: DESTRUCTIVE OPERATION\n\nTarget device: " ++
               (d ++ ("\n\nPartition layout:\n" ++ (l ++ (smartText sm ++
                 "\n\nImage: ")))),
             "\n\nClick OK to continue.",
             ?_⟩⟩ <;>
      simp [confirmMessage, String.append_assoc]
  · intro d l s i hs
    refine ⟨"WARNING: DESTRUCTIVE OPERATION\n\nTarget device: " ++
              (d ++ ("\n\nPartition layout:\n" ++ (l ++ "\nSMART Info:\n"))),
            "\n\nImage: " ++ (i ++ "\n\nClick OK to continue."),
            ?_⟩
    simp [confirmMessage, smartText, hs, String.append_assoc]
  · intro i
    cases i <;> simp [confirmDestructiveWrite, dialogReply]

/-- Concrete instantiation of `confirmation_gate_contents_and_default`. -/
theorem confirmation_gate_contents_and_default_witness :
    presents
      (confirmMessage "/dev/sdb" "sdb 8:16 1 14.9G 0 disk"
        (some "SMART overall-health: PASSED") "backup.img")
      "SMART overall-health: PASSED" :=
  confirmation_gate_contents_and_default.2.1 "/dev/sdb" "sdb 8:16 1 14.9G 0 disk"
    "SMART overall-health: PASSED" "backup.img" (by decide)

/-- Claim C9 (code-bug evidence). The worker performs no termination request
on its subprocess for any command and stderr stream, and the GUI never
reports a Cancelled outcome for any run — the program has no cancellation
path at all. -/
theorem worker_never_cancels :
    (∀ (cmd : List String) (stderrLines : List String),
        (workerProcOps cmd stderrLines).count ProcOp.terminate = 0) ∧
    (∀ (stderrLines : List String) (exitCode : Int),
        (runReport stderrLines exitCode).count GuiAction.setCancelled = 0) := by
  constructor
  · intro cmd lines
    rw [List.count_eq_zero]
    simp [workerProcOps]
  · intro lines c
    rw [List.count_eq_zero]
    simp [runReport, workerRun, guiHandle, updateProgressAction, ddFinished]

/-- Claim C10. Every device-selection change with a non-empty (stripped)
device text re-runs the mount query for exactly that device, and afterwards
the Start control is enabled iff the query output strips to empty while the
Unmount control is enabled iff it does not. -/
theorem selection_change_regates_start_button :
    ∀ (currentText : String) (env : DevEnv) (st : DevUiState),
      pyStrip currentText ≠ "" →
      (onDeviceSelectionChanged currentText env st).2 =
        [DevQuery.capacityQuery
           ["lsblk", "-b", "-dn", "-o", "SIZE", pyStrip currentText],
         DevQuery.mountQuery
           ["lsblk", "-n", "-o", "MOUNTPOINT", pyStrip currentText]] ∧
      ((onDeviceSelectionChanged currentText env st).1.startEnabled = true ↔
        pyStrip env.mountOut = "") ∧
      ((onDeviceSelectionChanged currentText env st).1.unmountEnabled = true ↔
        pyStrip env.mountOut ≠ "") := by
  intro text env st h
  refine ⟨?_, ?_, ?_⟩ <;>
    simp [onDeviceSelectionChanged, update_dev_capacity, h, get_mounted_partitions]

/-- Concrete instantiation of `selection_change_regates_start_button`: a
mounted device disables Start and enables Unmount. -/
theorem selection_change_regates_start_button_witness :
    (onDeviceSelectionChanged "/dev/sdb " (DevEnv.mk (some 2147483648) "/mnt/usb\n")
        (DevUiState.mk none true false)).2 =
      [DevQuery.capacityQuery ["lsblk", "-b", "-dn", "-o", "SIZE", pyStrip "/dev/sdb "],
       DevQuery.mountQuery ["lsblk", "-n", "-o", "MOUNTPOINT", pyStrip "/dev/sdb "]] ∧
    ((onDeviceSelectionChanged "/dev/sdb " (DevEnv.mk (some 2147483648) "/mnt/usb\n")
        (DevUiState.mk none true false)).1.startEnabled = true ↔
      pyStrip (DevEnv.mk (some 2147483648) "/mnt/usb\n").mountOut = "") ∧
    ((onDeviceSelectionChanged "/dev/sdb " (DevEnv.mk (some 2147483648) "/mnt/usb\n")
        (DevUiState.mk none true false)).1.unmountEnabled = true ↔
      pyStrip (DevEnv.mk (some 2147483648) "/mnt/usb\n").mountOut ≠ "") :=
  selection_change_regates_start_button "/dev/sdb "
    (DevEnv.mk (some 2147483648) "/mnt/usb\n")
    (DevUiState.mk none true false) (by decide)

end DDWrap
